import Mathlib

/-!
Shallow embedding of the screenshot-selection tool
(src/src/App.tsx and src/src/ScreenCaptureTool.tsx).

Coordinates are modelled as integers: every operation the code performs on
them (addition, subtraction, `Math.min`, `Math.max`, `Math.abs`) is exact on
integers, and pointer coordinates (`clientX`/`clientY`) and scroll offsets
are integral in the browser event model.

The asynchronous raster capture (`html2canvas`) is modelled by an explicit
outcome parameter: the promise either resolves (`success`), rejects
(`rasterError`), or the 2D drawing context is unavailable (`noContext`).
The produced crop is recorded as the parameters of the `drawImage` call
(source origin and size), which fully determine the output image given the
opaque full-page raster.
-/

/-- The `Selection` interface of App.tsx: a rectangle in viewport
coordinates. -/
structure Selection where
  x : Int
  y : Int
  width : Int
  height : Int
deriving DecidableEq

/-- The `ResizeStartPos` interface of App.tsx: snapshot of the rectangle
(`x`, `y`, `width`, `height`) plus the pointer position at resize start
(`startX`, `startY`). -/
structure ResizeStartPos where
  x : Int
  y : Int
  width : Int
  height : Int
  startX : Int
  startY : Int
deriving DecidableEq

/-- The `ResizeType` union of App.tsx: the eight compass-direction handle
tags. -/
inductive ResizeType where
  | nw | n | ne | e | se | s | sw | w
deriving DecidableEq

/-- Whether the handle tag string contains the character `e`
(`resizeType.includes('e')`). -/
def includesE : ResizeType → Bool
  | .ne | .e | .se => true
  | _ => false

/-- Whether the handle tag string contains the character `w`
(`resizeType.includes('w')`). -/
def includesW : ResizeType → Bool
  | .nw | .sw | .w => true
  | _ => false

/-- Whether the handle tag string contains the character `n`
(`resizeType.includes('n')`). -/
def includesN : ResizeType → Bool
  | .nw | .n | .ne => true
  | _ => false

/-- Whether the handle tag string contains the character `s`
(`resizeType.includes('s')`). -/
def includesS : ResizeType → Bool
  | .se | .s | .sw => true
  | _ => false

/-- `const MIN_SELECTION_SIZE = 20` of App.tsx. -/
def MIN_SELECTION_SIZE : Int := 20

/-- Completion classes of a capture invocation: the raster promise resolves,
it rejects (caught by the `catch` block), or `getContext('2d')` returns
null. -/
inductive CaptureOutcome where
  | success | rasterError | noContext
deriving DecidableEq

/-- The parameters of the cropping `drawImage` call: source origin and size
taken from the full-page raster. They determine the output image. -/
structure CroppedImage where
  sourceX : Int
  sourceY : Int
  width : Int
  height : Int
deriving DecidableEq

/-- The React state of the `App` component: the eight `useState` hooks of
App.tsx. -/
structure AppState where
  isSelecting : Bool
  selection : Option Selection
  startPos : Option (Int × Int)
  isDragging : Bool
  dragOffset : Option (Int × Int)
  isResizing : Bool
  resizeType : Option ResizeType
  resizeStartPos : Option ResizeStartPos
deriving DecidableEq

namespace App

/-- `createSelection` of App.tsx: the normalized bounding box of two
points. -/
def createSelection (x1 y1 x2 y2 : Int) : Selection :=
  { x := min x1 x2
    y := min y1 y2
    width := |x2 - x1|
    height := |y2 - y1| }

/-- `calculateResize` of App.tsx: from the resize-start snapshot, the handle
tag, and the current pointer position, compute the new rectangle.  The four
`if (resizeType.includes(..))` blocks are translated as sequential updates,
exactly as in the source. -/
def calculateResize (resizeStartPos : ResizeStartPos) (resizeType : ResizeType)
    (currentX currentY : Int) : Selection :=
  let startWidth := resizeStartPos.width
  let startHeight := resizeStartPos.height
  let startX := resizeStartPos.x
  let startY := resizeStartPos.y
  let mouseStartX := resizeStartPos.startX
  let mouseStartY := resizeStartPos.startY
  let deltaX := currentX - mouseStartX
  let deltaY := currentY - mouseStartY
  let newWidth1 := if includesE resizeType then
      max MIN_SELECTION_SIZE (startWidth + deltaX) else startWidth
  let newWidth2 := if includesW resizeType then
      max MIN_SELECTION_SIZE (startWidth - deltaX) else newWidth1
  let newX := if includesW resizeType then startX + deltaX else startX
  let newHeight1 := if includesS resizeType then
      max MIN_SELECTION_SIZE (startHeight + deltaY) else startHeight
  let newHeight2 := if includesN resizeType then
      max MIN_SELECTION_SIZE (startHeight - deltaY) else newHeight1
  let newY := if includesN resizeType then startY + deltaY else startY
  { x := newX, y := newY, width := newWidth2, height := newHeight2 }

/-- `handleMouseMove` of App.tsx: the `if / else if / else if` dispatch on
the interaction flags, updating the selection. -/
def handleMouseMove (s : AppState) (clientX clientY : Int) : AppState :=
  match s.isSelecting, s.startPos with
  | true, some sp =>
      { s with selection := some (createSelection sp.1 sp.2 clientX clientY) }
  | _, _ =>
    match s.isDragging, s.selection, s.dragOffset with
    | true, some sel, some off =>
        { s with selection := some { sel with x := clientX - off.1, y := clientY - off.2 } }
    | _, _, _ =>
      match s.isResizing, s.resizeStartPos, s.resizeType with
      | true, some rsp, some t =>
          { s with selection := some (calculateResize rsp t clientX clientY) }
      | _, _, _ => s

/-- `handleMouseUp` of App.tsx: clears every interaction flag and anchor;
the selection rectangle and start position are retained. -/
def handleMouseUp (s : AppState) : AppState :=
  { s with
      isSelecting := false
      isDragging := false
      dragOffset := none
      isResizing := false
      resizeType := none
      resizeStartPos := none }

/-- `handleStartSelection` of App.tsx: enter drawing mode, record the
pointer start position, clear any prior rectangle. -/
def handleStartSelection (s : AppState) (clientX clientY : Int) : AppState :=
  { s with
      isSelecting := true
      startPos := some (clientX, clientY)
      selection := none }

/-- `handleStartDrag` of App.tsx: guarded on an existing selection; enter
dragging mode and record the anchor offset = pointer − rectangle origin. -/
def handleStartDrag (s : AppState) (clientX clientY : Int) : AppState :=
  match s.selection with
  | none => s
  | some sel =>
      { s with
          isDragging := true
          dragOffset := some (clientX - sel.x, clientY - sel.y) }

/-- `handleStartResize` of App.tsx: guarded on an existing selection; enter
resizing mode, record the handle tag and the snapshot of rectangle plus
pointer start. -/
def handleStartResize (s : AppState) (t : ResizeType) (clientX clientY : Int) :
    AppState :=
  match s.selection with
  | none => s
  | some sel =>
      { s with
          isResizing := true
          resizeType := some t
          resizeStartPos := some
            { x := sel.x, y := sel.y, width := sel.width, height := sel.height
              startX := clientX, startY := clientY } }

/-- `resetSelection` of App.tsx: clears the rectangle and the drawing start
position. -/
def resetSelection (s : AppState) : AppState :=
  { s with selection := none, startPos := none }

/-- `takeScreenshot` of App.tsx.  Guard: `if (!selection) return`.  On a
successful raster the crop source origin is
`(selection.x + window.scrollX, selection.y + window.scrollY)` and
`resetSelection` runs; if the raster promise rejects the `catch` block only
logs; if `getContext('2d')` is null the function returns early.  In the two
failure paths no image is produced and the state is returned unchanged. -/
def takeScreenshot (s : AppState) (scrollX scrollY : Int)
    (outcome : CaptureOutcome) : Option CroppedImage × AppState :=
  match s.selection with
  | none => (none, s)
  | some sel =>
    match outcome with
    | .rasterError => (none, s)
    | .noContext => (none, s)
    | .success =>
        (some { sourceX := sel.x + scrollX, sourceY := sel.y + scrollY
                width := sel.width, height := sel.height },
         resetSelection s)

/-- The pointer-level events the App component reacts to: the Select Area
button, mouse-down on the rectangle body, mouse-down on a resize handle,
window mouse-move and window mouse-up. -/
inductive Event where
  | beginSelection (x y : Int)
  | pointerDownBody (x y : Int)
  | pointerDownHandle (t : ResizeType) (x y : Int)
  | pointerMove (x y : Int)
  | pointerUp
deriving DecidableEq

/-- One step of the App interaction state machine.  The Select Area button
carries `disabled={isSelecting}`, so `beginSelection` only fires when not
already drawing; the other handlers run exactly as written in the source
(their only guards are their own null checks). -/
def step (s : AppState) : Event → AppState
  | .beginSelection x y => if s.isSelecting then s else handleStartSelection s x y
  | .pointerDownBody x y => handleStartDrag s x y
  | .pointerDownHandle t x y => handleStartResize s t x y
  | .pointerMove x y => handleMouseMove s x y
  | .pointerUp => handleMouseUp s

/-- The initial React state: all flags false, all options null. -/
def initialState : AppState :=
  { isSelecting := false, selection := none, startPos := none
    isDragging := false, dragOffset := none
    isResizing := false, resizeType := none, resizeStartPos := none }

/-- Number of simultaneously active interaction modes among drawing,
dragging and resizing. -/
def activeCount (s : AppState) : Nat :=
  (if s.isSelecting then 1 else 0) + (if s.isDragging then 1 else 0) +
    (if s.isResizing then 1 else 0)

end App

namespace Overlay

/-- The `SelectionArea` interface of ScreenCaptureTool.tsx: the two corner
points of the rubber-band selection, in overlay-relative coordinates. -/
structure SelectionArea where
  startX : Int
  startY : Int
  endX : Int
  endY : Int
deriving DecidableEq

/-- The React state of the `ScreenCaptureTool` component: the three
`useState` hooks of ScreenCaptureTool.tsx. -/
structure State where
  isCapturing : Bool
  isSelecting : Bool
  selectionArea : Option SelectionArea
deriving DecidableEq

/-- `startCapture` of ScreenCaptureTool.tsx: opens the overlay session. -/
def startCapture (_s : State) : State :=
  { isCapturing := true, isSelecting := true, selectionArea := none }

/-- The Capture Screen button carries `disabled={isCapturing}`: the click
handler `startCapture` only fires when no session or capture is active. -/
def startCaptureClick (s : State) : State :=
  if s.isCapturing then s else startCapture s

/-- `cancelCapture` of ScreenCaptureTool.tsx: resets the whole session. -/
def cancelCapture (_s : State) : State :=
  { isCapturing := false, isSelecting := false, selectionArea := none }

/-- `handleMouseDown` of ScreenCaptureTool.tsx: guarded on `isSelecting`;
records both corners at the pointer position relative to the overlay's
bounding box `(rectLeft, rectTop)`. -/
def handleMouseDown (s : State) (rectLeft rectTop clientX clientY : Int) :
    State :=
  if s.isSelecting then
    let startX := clientX - rectLeft
    let startY := clientY - rectTop
    { s with selectionArea := some { startX := startX, startY := startY, endX := startX, endY := startY } }
  else s

/-- `handleMouseMove` of ScreenCaptureTool.tsx: guarded on `isSelecting` and
an existing selection area; moves the end corner to the pointer position
relative to the overlay's bounding box. -/
def handleMouseMove (s : State) (rectLeft rectTop clientX clientY : Int) :
    State :=
  if s.isSelecting then
    match s.selectionArea with
    | none => s
    | some prev =>
        { s with selectionArea := some { prev with endX := clientX - rectLeft, endY := clientY - rectTop } }
  else s

/-- `handleMouseUp` of ScreenCaptureTool.tsx.  Guarded on `isSelecting` and
an existing selection area.  Converts the overlay-relative corners to
viewport coordinates by adding the overlay's bounding-box offset, normalizes
them with min/abs, discards selections under 10 px in either dimension, and
otherwise crops the raster at source origin `(left, top)` — no scroll offset
is read anywhere in this component.  All completing paths end in
`cancelCapture`; the early guard return leaves the state unchanged. -/
def handleMouseUp (s : State) (rectLeft rectTop : Int)
    (outcome : CaptureOutcome) : Option CroppedImage × State :=
  match s.isSelecting, s.selectionArea with
  | true, some area =>
    let s1 : State := { s with isSelecting := false }
    let actualStartX := area.startX + rectLeft
    let actualStartY := area.startY + rectTop
    let actualEndX := area.endX + rectLeft
    let actualEndY := area.endY + rectTop
    let left := min actualStartX actualEndX
    let top := min actualStartY actualEndY
    let width := |actualEndX - actualStartX|
    let height := |actualEndY - actualStartY|
    if width < 10 ∨ height < 10 then (none, cancelCapture s1)
    else
      match outcome with
      | .rasterError => (none, cancelCapture s1)
      | .noContext => (none, cancelCapture s1)
      | .success =>
          (some { sourceX := left, sourceY := top, width := width, height := height },
           cancelCapture s1)
  | _, _ => (none, s)

end Overlay

/-- Claim C6: `createSelection` of two points yields the rectangle whose
top-left corner is the componentwise minimum of the points, whose width and
height are the absolute coordinate differences (hence non-negative), and
which is identical when the two points are supplied in the other order. -/
theorem C6_createSelection_normalizes (x1 y1 x2 y2 : Int) :
    (App.createSelection x1 y1 x2 y2).x = min x1 x2 ∧
    (App.createSelection x1 y1 x2 y2).y = min y1 y2 ∧
    (App.createSelection x1 y1 x2 y2).width = |x2 - x1| ∧
    (App.createSelection x1 y1 x2 y2).height = |y2 - y1| ∧
    0 ≤ (App.createSelection x1 y1 x2 y2).width ∧
    0 ≤ (App.createSelection x1 y1 x2 y2).height ∧
    App.createSelection x2 y2 x1 y1 = App.createSelection x1 y1 x2 y2 := by
  refine ⟨rfl, rfl, rfl, rfl, abs_nonneg _, abs_nonneg _, ?_⟩
  simp [App.createSelection, min_comm, abs_sub_comm]

/-- Claim C2, counterexample: a resize via the pure vertical handle `n` on a
snapshot of width 5 with zero pointer delta leaves the width at 5, below
MIN_SELECTION_SIZE = 20: the claimed consequence that the resulting width
and height are never below MIN_SIZE is false for dimensions the handle does
not address. -/
theorem C2_counterexample :
    (App.calculateResize
        { x := 0, y := 0, width := 5, height := 5, startX := 0, startY := 0 }
        ResizeType.n 0 0).width = 5 ∧
    ¬ MIN_SELECTION_SIZE ≤ (App.calculateResize
        { x := 0, y := 0, width := 5, height := 5, startX := 0, startY := 0 }
        ResizeType.n 0 0).width := by
  decide

/-- Claim C2, amended: `calculateResize` applies exactly the per-edge rules
of the claim — `e` sets width = max(MIN_SIZE, start width + deltaX), `w`
sets width = max(MIN_SIZE, start width − deltaX) and x = start x + deltaX,
`s` and `n` symmetrically for height and y, a corner handle applying both of
its rules independently — and fields not addressed by the handle keep their
snapshot values; consequently each resulting dimension is either at least
MIN_SELECTION_SIZE or exactly the (unaddressed) snapshot value, which may
itself lie below MIN_SELECTION_SIZE. -/
theorem C2_amended_resize_rules (rsp : ResizeStartPos) (t : ResizeType)
    (cx cy : Int) :
    App.calculateResize rsp t cx cy =
      { x := if includesW t then rsp.x + (cx - rsp.startX) else rsp.x
        y := if includesN t then rsp.y + (cy - rsp.startY) else rsp.y
        width :=
          if includesE t then max MIN_SELECTION_SIZE (rsp.width + (cx - rsp.startX))
          else if includesW t then max MIN_SELECTION_SIZE (rsp.width - (cx - rsp.startX))
          else rsp.width
        height :=
          if includesS t then max MIN_SELECTION_SIZE (rsp.height + (cy - rsp.startY))
          else if includesN t then max MIN_SELECTION_SIZE (rsp.height - (cy - rsp.startY))
          else rsp.height } ∧
    (MIN_SELECTION_SIZE ≤ (App.calculateResize rsp t cx cy).width ∨
      (App.calculateResize rsp t cx cy).width = rsp.width) ∧
    (MIN_SELECTION_SIZE ≤ (App.calculateResize rsp t cx cy).height ∨
      (App.calculateResize rsp t cx cy).height = rsp.height) := by
  cases t <;>
    simp [App.calculateResize, includesE, includesW, includesN, includesS,
      MIN_SELECTION_SIZE]

/-- Claim C3, counterexample: resizing via the `w` handle with deltaX = 50
from a snapshot of width 30 clamps the width to 20 but still shifts x by the
full delta, so the right edge moves from 30 to 70: the opposite edge is not
fixed when the MIN_SIZE floor clamps. -/
theorem C3_counterexample :
    App.calculateResize
        { x := 0, y := 0, width := 30, height := 30, startX := 0, startY := 0 }
        ResizeType.w 50 0 =
      { x := 50, y := 0, width := 20, height := 30 } ∧
    (App.calculateResize
        { x := 0, y := 0, width := 30, height := 30, startX := 0, startY := 0 }
        ResizeType.w 50 0).x +
      (App.calculateResize
        { x := 0, y := 0, width := 30, height := 30, startX := 0, startY := 0 }
        ResizeType.w 50 0).width ≠ 0 + 30 := by
  decide

/-- Claim C3, amended: the edge opposite to the handle stays fixed except
when the MIN_SIZE floor clamps — resizing via a handle containing `e` never
moves the left edge and one containing `s` never moves the top edge,
unconditionally; handles containing `w` keep the right edge (x + width)
fixed, and handles containing `n` keep the bottom edge (y + height) fixed,
whenever the respective new dimension is not clamped (start width − deltaX
respectively start height − deltaY is at least MIN_SELECTION_SIZE); under
clamping the origin still shifts by the full delta, so the opposite edge
drifts. -/
theorem C3_amended_opposite_edge_fixed (rsp : ResizeStartPos) (cx cy : Int) :
    ((App.calculateResize rsp ResizeType.e cx cy).x = rsp.x ∧
     (App.calculateResize rsp ResizeType.ne cx cy).x = rsp.x ∧
     (App.calculateResize rsp ResizeType.se cx cy).x = rsp.x) ∧
    ((App.calculateResize rsp ResizeType.s cx cy).y = rsp.y ∧
     (App.calculateResize rsp ResizeType.se cx cy).y = rsp.y ∧
     (App.calculateResize rsp ResizeType.sw cx cy).y = rsp.y) ∧
    (MIN_SELECTION_SIZE ≤ rsp.width - (cx - rsp.startX) →
      ((App.calculateResize rsp ResizeType.w cx cy).x +
          (App.calculateResize rsp ResizeType.w cx cy).width = rsp.x + rsp.width ∧
       (App.calculateResize rsp ResizeType.nw cx cy).x +
          (App.calculateResize rsp ResizeType.nw cx cy).width = rsp.x + rsp.width ∧
       (App.calculateResize rsp ResizeType.sw cx cy).x +
          (App.calculateResize rsp ResizeType.sw cx cy).width = rsp.x + rsp.width)) ∧
    (MIN_SELECTION_SIZE ≤ rsp.height - (cy - rsp.startY) →
      ((App.calculateResize rsp ResizeType.n cx cy).y +
          (App.calculateResize rsp ResizeType.n cx cy).height = rsp.y + rsp.height ∧
       (App.calculateResize rsp ResizeType.nw cx cy).y +
          (App.calculateResize rsp ResizeType.nw cx cy).height = rsp.y + rsp.height ∧
       (App.calculateResize rsp ResizeType.ne cx cy).y +
          (App.calculateResize rsp ResizeType.ne cx cy).height = rsp.y + rsp.height)) := by
  refine ⟨⟨?_, ?_, ?_⟩, ⟨?_, ?_, ?_⟩, ?_, ?_⟩
  · simp [App.calculateResize, includesE, includesW, includesN, includesS]
  · simp [App.calculateResize, includesE, includesW, includesN, includesS]
  · simp [App.calculateResize, includesE, includesW, includesN, includesS]
  · simp [App.calculateResize, includesE, includesW, includesN, includesS]
  · simp [App.calculateResize, includesE, includesW, includesN, includesS]
  · simp [App.calculateResize, includesE, includesW, includesN, includesS]
  · intro hw
    simp only [MIN_SELECTION_SIZE] at hw
    refine ⟨?_, ?_, ?_⟩ <;>
      simp [App.calculateResize, includesE, includesW, includesN, includesS,
        MIN_SELECTION_SIZE] <;>
      omega
  · intro hn
    simp only [MIN_SELECTION_SIZE] at hn
    refine ⟨?_, ?_, ?_⟩ <;>
      simp [App.calculateResize, includesE, includesW, includesN, includesS,
        MIN_SELECTION_SIZE] <;>
      omega

/-- Claim C5, counterexample: begin a selection at (100, 100), move the
pointer to (150, 150) (creating the rectangle), then press the pointer down
on the rectangle body: `handleStartDrag` has no guard on `isSelecting`, so
the resulting state has both the Drawing and the Dragging flags set — two
interaction modes are simultaneously active. -/
theorem C5_counterexample_two_flags_reachable :
    (App.step (App.step (App.step App.initialState
        (App.Event.beginSelection 100 100)) (App.Event.pointerMove 150 150))
        (App.Event.pointerDownBody 120 120)).isSelecting = true ∧
    (App.step (App.step (App.step App.initialState
        (App.Event.beginSelection 100 100)) (App.Event.pointerMove 150 150))
        (App.Event.pointerDownBody 120 120)).isDragging = true ∧
    App.activeCount (App.step (App.step (App.step App.initialState
        (App.Event.beginSelection 100 100)) (App.Event.pointerMove 150 150))
        (App.Event.pointerDownBody 120 120)) = 2 := by
  decide

/-- Claim C5, amended: pointer-up always returns to a state with no active
interaction mode, and from a state with no active mode any single event
activates at most one of Drawing, Dragging, Resizing; however a pointer-down
on the rectangle body or on a resize handle while Drawing is active is not
guarded, so event sequences can set two flags simultaneously. -/
theorem C5_amended_single_activation (s : AppState) (e : App.Event) :
    App.activeCount (App.step s App.Event.pointerUp) = 0 ∧
    (App.activeCount s = 0 → App.activeCount (App.step s e) ≤ 1) := by
  constructor
  · simp [App.step, App.handleMouseUp, App.activeCount]
  · intro hq
    rcases s with ⟨isSel, sel, sp, isDrag, doff, isRes, rt0, rsp0⟩
    cases isSel <;> cases isDrag <;> cases isRes <;>
      simp [App.activeCount] at hq
    cases e <;> cases sel <;>
      simp [App.step, App.handleStartSelection, App.handleStartDrag,
        App.handleStartResize, App.handleMouseMove, App.handleMouseUp,
        App.activeCount]

/-- Claim C5, witness for the amended theorem: pointer-up clears all modes
from the initial state and also from the reachable two-flag state; the
initial state has no active mode and a begin-selection event from it
activates at most one mode. -/
theorem C5_amended_single_activation_witness :
    App.activeCount (App.step App.initialState App.Event.pointerUp) = 0 ∧
    App.activeCount (App.step (App.step (App.step (App.step App.initialState
        (App.Event.beginSelection 100 100)) (App.Event.pointerMove 150 150))
        (App.Event.pointerDownBody 120 120)) App.Event.pointerUp) = 0 ∧
    (App.activeCount App.initialState = 0 ∧
      App.activeCount (App.step App.initialState
        (App.Event.beginSelection 0 0)) ≤ 1) :=
  ⟨(C5_amended_single_activation App.initialState
      (App.Event.beginSelection 0 0)).1,
    (C5_amended_single_activation (App.step (App.step (App.step App.initialState
        (App.Event.beginSelection 100 100)) (App.Event.pointerMove 150 150))
        (App.Event.pointerDownBody 120 120)) App.Event.pointerUp).1,
    by decide,
    (C5_amended_single_activation App.initialState
      (App.Event.beginSelection 0 0)).2 (by decide)⟩

/-- Claim C7: starting a drag on a state with a rectangle records the anchor
offset as pointer-down position minus rectangle origin, and each subsequent
drag move sets the rectangle origin to the pointer position minus that
anchor offset while width and height are unchanged. -/
theorem C7_drag_anchor_and_move (s : AppState) (sel : Selection)
    (mx my px py : Int) (hsel : s.selection = some sel)
    (hns : s.isSelecting = false) :
    (App.handleStartDrag s mx my).isDragging = true ∧
    (App.handleStartDrag s mx my).dragOffset = some (mx - sel.x, my - sel.y) ∧
    (App.handleMouseMove (App.handleStartDrag s mx my) px py).selection =
      some { x := px - (mx - sel.x), y := py - (my - sel.y)
             width := sel.width, height := sel.height } := by
  simp [App.handleStartDrag, App.handleMouseMove, hsel, hns]

/-- Claim C7, witness: from a rectangle at (10, 10) of size 40 by 30 and a
pointer-down at (30, 30), the anchor offset is (20, 20) and a drag move to
(5, 5) puts the origin at (−15, −15) with the size unchanged. -/
theorem C7_drag_anchor_and_move_witness :
    ((⟨false, some ⟨10, 10, 40, 30⟩, none, false, none, false, none, none⟩ :
        AppState).selection = some ⟨10, 10, 40, 30⟩ ∧
      (⟨false, some ⟨10, 10, 40, 30⟩, none, false, none, false, none, none⟩ :
        AppState).isSelecting = false) ∧
    ((App.handleStartDrag
        ⟨false, some ⟨10, 10, 40, 30⟩, none, false, none, false, none, none⟩
        30 30).isDragging = true ∧
      (App.handleStartDrag
        ⟨false, some ⟨10, 10, 40, 30⟩, none, false, none, false, none, none⟩
        30 30).dragOffset = some (30 - 10, 30 - 10) ∧
      (App.handleMouseMove (App.handleStartDrag
        ⟨false, some ⟨10, 10, 40, 30⟩, none, false, none, false, none, none⟩
        30 30) 5 5).selection =
        some { x := 5 - (30 - 10), y := 5 - (30 - 10), width := 40, height := 30 }) :=
  ⟨⟨rfl, rfl⟩, C7_drag_anchor_and_move
    ⟨false, some ⟨10, 10, 40, 30⟩, none, false, none, false, none, none⟩
    ⟨10, 10, 40, 30⟩ 30 30 5 5 rfl rfl⟩

/-- Claim C10: a drag move applies no bounds clamping — the new origin is
exactly the pointer position minus the anchor offset, whatever its sign —
and a subsequent successful capture uses exactly those coordinates plus the
scroll offset as the crop source origin. -/
theorem C10_drag_unclamped_capture (s : AppState) (sel : Selection)
    (off : Int × Int) (px py sx sy : Int)
    (hns : s.isSelecting = false) (hd : s.isDragging = true)
    (hsel : s.selection = some sel) (hoff : s.dragOffset = some off) :
    (App.handleMouseMove s px py).selection =
      some { x := px - off.1, y := py - off.2
             width := sel.width, height := sel.height } ∧
    (App.takeScreenshot (App.handleMouseMove s px py) sx sy
        CaptureOutcome.success).1 =
      some { sourceX := px - off.1 + sx, sourceY := py - off.2 + sy
             width := sel.width, height := sel.height } := by
  simp [App.handleMouseMove, App.takeScreenshot, App.resetSelection,
    hns, hd, hsel, hoff]

/-- Claim C10, witness: with anchor offset (50, 60), a drag move to (5, 5)
puts the origin at (−45, −55) — negative, unclamped — and a capture at
scroll (100, 200) crops from source origin (55, 145). -/
theorem C10_drag_unclamped_capture_witness :
    ((⟨false, some ⟨10, 10, 40, 30⟩, none, true, some (50, 60), false, none,
        none⟩ : AppState).isSelecting = false ∧
      (⟨false, some ⟨10, 10, 40, 30⟩, none, true, some (50, 60), false, none,
        none⟩ : AppState).isDragging = true ∧
      (⟨false, some ⟨10, 10, 40, 30⟩, none, true, some (50, 60), false, none,
        none⟩ : AppState).selection = some ⟨10, 10, 40, 30⟩ ∧
      (⟨false, some ⟨10, 10, 40, 30⟩, none, true, some (50, 60), false, none,
        none⟩ : AppState).dragOffset = some (50, 60)) ∧
    ((App.handleMouseMove
        ⟨false, some ⟨10, 10, 40, 30⟩, none, true, some (50, 60), false, none,
          none⟩ 5 5).selection =
      some { x := 5 - (50, 60).1, y := 5 - (50, 60).2, width := 40, height := 30 } ∧
      (App.takeScreenshot (App.handleMouseMove
        ⟨false, some ⟨10, 10, 40, 30⟩, none, true, some (50, 60), false, none,
          none⟩ 5 5) 100 200 CaptureOutcome.success).1 =
      some { sourceX := 5 - (50, 60).1 + 100, sourceY := 5 - (50, 60).2 + 200
             width := 40, height := 30 }) :=
  ⟨⟨rfl, rfl, rfl, rfl⟩, C10_drag_unclamped_capture
    ⟨false, some ⟨10, 10, 40, 30⟩, none, true, some (50, 60), false, none, none⟩
    ⟨10, 10, 40, 30⟩ (50, 60) 5 5 100 200 rfl rfl rfl rfl⟩

/-- Claim C4, counterexample: in the App variant, when the raster capture
rejects or the 2D context is unavailable, no image is produced but the
selection is NOT cleared — `resetSelection` runs only on the success path,
so the state after a failed capture still holds the rectangle. -/
theorem C4_counterexample_error_keeps_selection :
    (App.takeScreenshot
        ⟨false, some ⟨10, 10, 100, 100⟩, none, false, none, false, none, none⟩
        0 0 CaptureOutcome.rasterError).1 = none ∧
    (App.takeScreenshot
        ⟨false, some ⟨10, 10, 100, 100⟩, none, false, none, false, none, none⟩
        0 0 CaptureOutcome.rasterError).2.selection = some ⟨10, 10, 100, 100⟩ ∧
    (App.takeScreenshot
        ⟨false, some ⟨10, 10, 100, 100⟩, none, false, none, false, none, none⟩
        0 0 CaptureOutcome.noContext).2.selection = some ⟨10, 10, 100, 100⟩ := by
  decide

/-- Claim C4, amended: on a successful App-variant capture the selection and
start position are cleared; when the raster rejects or the 2D context is
missing, no image is produced, no retry is attempted, and the state is
returned entirely unchanged — the selection is retained, not cleared.  In
the overlay variant the completion of `handleMouseUp` resets the whole
session state regardless of outcome. -/
theorem C4_amended_capture_completion (s : AppState) (sel : Selection)
    (sx sy : Int) (os : Overlay.State) (area : Overlay.SelectionArea)
    (rl rt : Int) (o : CaptureOutcome)
    (hsel : s.selection = some sel)
    (hos : os.isSelecting = true) (harea : os.selectionArea = some area) :
    App.takeScreenshot s sx sy CaptureOutcome.rasterError = (none, s) ∧
    App.takeScreenshot s sx sy CaptureOutcome.noContext = (none, s) ∧
    (App.takeScreenshot s sx sy CaptureOutcome.success).2.selection = none ∧
    (App.takeScreenshot s sx sy CaptureOutcome.success).2.startPos = none ∧
    (Overlay.handleMouseUp os rl rt o).2 =
      { isCapturing := false, isSelecting := false, selectionArea := none } := by
  refine ⟨?_, ?_, ?_, ?_, ?_⟩
  · simp [App.takeScreenshot, hsel]
  · simp [App.takeScreenshot, hsel]
  · simp [App.takeScreenshot, App.resetSelection, hsel]
  · simp [App.takeScreenshot, App.resetSelection, hsel]
  · simp only [Overlay.handleMouseUp, hos, harea, Overlay.cancelCapture]
    cases o <;> split <;> rfl

/-- Claim C4, witness: concrete states for both variants; the failure paths
leave the App state untouched, the success path clears the rectangle, and
the overlay mouse-up ends in the reset session state. -/
theorem C4_amended_capture_completion_witness :
    ((⟨false, some ⟨10, 10, 100, 100⟩, none, false, none, false, none, none⟩ :
        AppState).selection = some ⟨10, 10, 100, 100⟩ ∧
      (⟨true, true, some ⟨0, 0, 50, 50⟩⟩ : Overlay.State).isSelecting = true ∧
      (⟨true, true, some ⟨0, 0, 50, 50⟩⟩ : Overlay.State).selectionArea =
        some ⟨0, 0, 50, 50⟩) ∧
    (App.takeScreenshot
        ⟨false, some ⟨10, 10, 100, 100⟩, none, false, none, false, none, none⟩
        3 4 CaptureOutcome.rasterError =
      (none, ⟨false, some ⟨10, 10, 100, 100⟩, none, false, none, false, none,
        none⟩) ∧
      App.takeScreenshot
        ⟨false, some ⟨10, 10, 100, 100⟩, none, false, none, false, none, none⟩
        3 4 CaptureOutcome.noContext =
      (none, ⟨false, some ⟨10, 10, 100, 100⟩, none, false, none, false, none,
        none⟩) ∧
      (App.takeScreenshot
        ⟨false, some ⟨10, 10, 100, 100⟩, none, false, none, false, none, none⟩
        3 4 CaptureOutcome.success).2.selection = none ∧
      (App.takeScreenshot
        ⟨false, some ⟨10, 10, 100, 100⟩, none, false, none, false, none, none⟩
        3 4 CaptureOutcome.success).2.startPos = none ∧
      (Overlay.handleMouseUp ⟨true, true, some ⟨0, 0, 50, 50⟩⟩ 0 0
        CaptureOutcome.success).2 =
      { isCapturing := false, isSelecting := false, selectionArea := none }) :=
  ⟨⟨rfl, rfl, rfl⟩, C4_amended_capture_completion
    ⟨false, some ⟨10, 10, 100, 100⟩, none, false, none, false, none, none⟩
    ⟨10, 10, 100, 100⟩ 3 4 ⟨true, true, some ⟨0, 0, 50, 50⟩⟩ ⟨0, 0, 50, 50⟩
    0 0 CaptureOutcome.success rfl rfl rfl⟩

/-- Claim C8, counterexample: in the App variant a rectangle of width 5 —
below both the overlay variant's 10 px floor and MIN_SELECTION_SIZE — still
produces an output image when capture is invoked: `takeScreenshot` only
checks that a selection exists, with no minimum-size guard. -/
theorem C8_counterexample_below_minimum_captures :
    (App.takeScreenshot
        ⟨false, some ⟨100, 100, 5, 5⟩, none, false, none, false, none, none⟩
        0 0 CaptureOutcome.success).1 = some ⟨100, 100, 5, 5⟩ ∧
    (⟨100, 100, 5, 5⟩ : Selection).width < 10 ∧
    (⟨100, 100, 5, 5⟩ : Selection).width < MIN_SELECTION_SIZE := by
  decide

/-- Claim C8, amended: with no rectangle at all, invoking capture produces
no output image in either variant — the App variant returns on a null
selection and the overlay mouse-up on a null selection area is a no-op; the
overlay variant additionally discards selections whose width or height is
below 10 px without producing an image; but the App variant has no
minimum-size guard — any existing rectangle, however small, is captured. -/
theorem C8_amended_capture_guards (s : AppState) (sx sy : Int)
    (o : CaptureOutcome) (os os2 : Overlay.State)
    (area : Overlay.SelectionArea) (rl rt : Int) (o2 : CaptureOutcome)
    (hnone : s.selection = none) (harea : os.selectionArea = some area)
    (hsmall : |area.endX - area.startX| < 10 ∨ |area.endY - area.startY| < 10)
    (hnone2 : os2.selectionArea = none) :
    App.takeScreenshot s sx sy o = (none, s) ∧
    (Overlay.handleMouseUp os rl rt o2).1 = none ∧
    Overlay.handleMouseUp os2 rl rt o2 = (none, os2) := by
  refine ⟨?_, ?_, ?_⟩
  · simp [App.takeScreenshot, hnone]
  · cases hsel : os.isSelecting
    · simp [Overlay.handleMouseUp, hsel, harea]
    · simp only [Overlay.handleMouseUp, hsel, harea, Overlay.cancelCapture]
      have h1 : area.endX + rl - (area.startX + rl) = area.endX - area.startX := by
        ring
      have h2 : area.endY + rt - (area.startY + rt) = area.endY - area.startY := by
        ring
      rw [h1, h2, if_pos hsmall]
  · cases hsel2 : os2.isSelecting <;>
      simp [Overlay.handleMouseUp, hsel2, hnone2]

/-- Claim C8, witness: an App state with no rectangle yields no image, an
overlay selection of size 5 by 5 is discarded with no image, and an overlay
mouse-up with no selection area at all is a no-op producing no image. -/
theorem C8_amended_capture_guards_witness :
    ((⟨false, none, none, false, none, false, none, none⟩ :
        AppState).selection = none ∧
      (⟨true, true, some ⟨0, 0, 5, 5⟩⟩ : Overlay.State).selectionArea =
        some ⟨0, 0, 5, 5⟩ ∧
      (|(⟨0, 0, 5, 5⟩ : Overlay.SelectionArea).endX -
          (⟨0, 0, 5, 5⟩ : Overlay.SelectionArea).startX| < 10 ∨
        |(⟨0, 0, 5, 5⟩ : Overlay.SelectionArea).endY -
          (⟨0, 0, 5, 5⟩ : Overlay.SelectionArea).startY| < 10) ∧
      (⟨true, true, none⟩ : Overlay.State).selectionArea = none) ∧
    (App.takeScreenshot ⟨false, none, none, false, none, false, none, none⟩
        0 0 CaptureOutcome.success =
      (none, ⟨false, none, none, false, none, false, none, none⟩) ∧
      (Overlay.handleMouseUp ⟨true, true, some ⟨0, 0, 5, 5⟩⟩ 0 0
        CaptureOutcome.success).1 = none ∧
      Overlay.handleMouseUp ⟨true, true, none⟩ 0 0 CaptureOutcome.success =
        (none, ⟨true, true, none⟩)) :=
  ⟨⟨rfl, rfl, by decide, rfl⟩, C8_amended_capture_guards
    ⟨false, none, none, false, none, false, none, none⟩ 0 0
    CaptureOutcome.success ⟨true, true, some ⟨0, 0, 5, 5⟩⟩ ⟨true, true, none⟩
    ⟨0, 0, 5, 5⟩ 0 0 CaptureOutcome.success rfl rfl (by decide) rfl⟩

/-- Claim C9, counterexample: in the state with a capture in flight
(`isCapturing` true, `isSelecting` already cleared by mouse-up, the
selection area still recorded), neither a mouse move nor a mouse down
changes the state — the existing selection can NOT be adjusted while the
capture is pending, because every mouse handler is gated on `isSelecting`. -/
theorem C9_counterexample_pending_blocks_adjustment :
    Overlay.handleMouseMove ⟨true, false, some ⟨100, 100, 150, 150⟩⟩ 0 0
        200 200 = ⟨true, false, some ⟨100, 100, 150, 150⟩⟩ ∧
    Overlay.handleMouseDown ⟨true, false, some ⟨100, 100, 150, 150⟩⟩ 0 0
        200 200 = ⟨true, false, some ⟨100, 100, 150, 150⟩⟩ := by
  decide

/-- Claim C9, amended: while a raster capture is pending in the overlay
variant (`isCapturing` true, `isSelecting` false), no new capture may be
started — the capturing flag disables the start button and the `isSelecting`
guard makes a re-entrant mouse-up return no image and leave the state
unchanged — and no new selection may be begun; but the existing selection
cannot be adjusted either: every pointer handler leaves the state unchanged
until the pending capture completes. -/
theorem C9_amended_pending_capture_blocks_all (s : Overlay.State)
    (rl rt cx cy : Int) (o : CaptureOutcome)
    (hc : s.isCapturing = true) (hns : s.isSelecting = false) :
    Overlay.startCaptureClick s = s ∧
    Overlay.handleMouseDown s rl rt cx cy = s ∧
    Overlay.handleMouseMove s rl rt cx cy = s ∧
    Overlay.handleMouseUp s rl rt o = (none, s) := by
  refine ⟨?_, ?_, ?_, ?_⟩ <;>
    simp [Overlay.startCaptureClick, Overlay.handleMouseDown,
      Overlay.handleMouseMove, Overlay.handleMouseUp, hc, hns]

/-- Claim C9, witness: the concrete pending-capture state blocks the start
button, both pointer handlers, and a re-entrant mouse-up. -/
theorem C9_amended_pending_capture_blocks_all_witness :
    ((⟨true, false, some ⟨0, 0, 50, 50⟩⟩ : Overlay.State).isCapturing = true ∧
      (⟨true, false, some ⟨0, 0, 50, 50⟩⟩ : Overlay.State).isSelecting = false) ∧
    (Overlay.startCaptureClick ⟨true, false, some ⟨0, 0, 50, 50⟩⟩ =
        ⟨true, false, some ⟨0, 0, 50, 50⟩⟩ ∧
      Overlay.handleMouseDown ⟨true, false, some ⟨0, 0, 50, 50⟩⟩ 0 0 7 7 =
        ⟨true, false, some ⟨0, 0, 50, 50⟩⟩ ∧
      Overlay.handleMouseMove ⟨true, false, some ⟨0, 0, 50, 50⟩⟩ 0 0 7 7 =
        ⟨true, false, some ⟨0, 0, 50, 50⟩⟩ ∧
      Overlay.handleMouseUp ⟨true, false, some ⟨0, 0, 50, 50⟩⟩ 0 0
        CaptureOutcome.success = (none, ⟨true, false, some ⟨0, 0, 50, 50⟩⟩)) :=
  ⟨⟨rfl, rfl⟩, C9_amended_pending_capture_blocks_all
    ⟨true, false, some ⟨0, 0, 50, 50⟩⟩ 0 0 7 7 CaptureOutcome.success rfl rfl⟩

/-- Claim C1: the App variant computes the crop source origin as
(rect.x + scrollX, rect.y + scrollY) — capturing the same viewport rectangle
at scroll (0, 0) and at (0, 500) yields crops 500 px apart in document
space — but the overlay variant, after adding the overlay bounding-box
offset, performs NO scroll-offset addition: its crop origin for the same
selection is the plain viewport coordinate (100, 100) and no scroll offset
enters its computation at all (`handleMouseUp` never reads one). -/
theorem C1_scroll_offset_divergence :
    (App.takeScreenshot
        ⟨false, some ⟨100, 100, 50, 50⟩, none, false, none, false, none, none⟩
        0 0 CaptureOutcome.success).1 = some ⟨100, 100, 50, 50⟩ ∧
    (App.takeScreenshot
        ⟨false, some ⟨100, 100, 50, 50⟩, none, false, none, false, none, none⟩
        0 500 CaptureOutcome.success).1 = some ⟨100, 600, 50, 50⟩ ∧
    (Overlay.handleMouseUp ⟨true, true, some ⟨100, 100, 150, 150⟩⟩ 0 0
        CaptureOutcome.success).1 = some ⟨100, 100, 50, 50⟩ := by
  decide

/-- Claim C3, witness for the amended theorem: a 100 by 100 snapshot with
pointer delta (10, 10) satisfies both no-clamp conditions, and the left
edge under `e`, the right edge under `w`, and the bottom edge under `n` are
all preserved there. -/
theorem C3_amended_opposite_edge_fixed_witness :
    (MIN_SELECTION_SIZE ≤ (100 : Int) - ((10 : Int) - (0 : Int)) ∧
      MIN_SELECTION_SIZE ≤ (100 : Int) - ((10 : Int) - (0 : Int))) ∧
    ((App.calculateResize
        { x := 0, y := 0, width := 100, height := 100, startX := 0, startY := 0 }
        ResizeType.e 10 10).x = 0 ∧
      (App.calculateResize
        { x := 0, y := 0, width := 100, height := 100, startX := 0, startY := 0 }
        ResizeType.w 10 10).x +
        (App.calculateResize
        { x := 0, y := 0, width := 100, height := 100, startX := 0, startY := 0 }
        ResizeType.w 10 10).width = 0 + 100 ∧
      (App.calculateResize
        { x := 0, y := 0, width := 100, height := 100, startX := 0, startY := 0 }
        ResizeType.n 10 10).y +
        (App.calculateResize
        { x := 0, y := 0, width := 100, height := 100, startX := 0, startY := 0 }
        ResizeType.n 10 10).height = 0 + 100) :=
  ⟨⟨by decide, by decide⟩,
    (C3_amended_opposite_edge_fixed
      { x := 0, y := 0, width := 100, height := 100, startX := 0, startY := 0 }
      10 10).1.1,
    ((C3_amended_opposite_edge_fixed
      { x := 0, y := 0, width := 100, height := 100, startX := 0, startY := 0 }
      10 10).2.2.1 (by decide)).1,
    ((C3_amended_opposite_edge_fixed
      { x := 0, y := 0, width := 100, height := 100, startX := 0, startY := 0 }
      10 10).2.2.2 (by decide)).1⟩
